import Mathlib

/-!
Shallow embedding of the hackx-project backend core services:

* `backend/services/answerEvaluationService.js` — answer evaluation and
  batch aggregation into a verification verdict (`AnswerEvaluationService`);
* `backend/services/ragService.js` — the job catalog, its CSV loading, and
  the skill-overlap job matcher (`RAGService`);
* the email dispatch service (`EmailService`) — batch application sending
  with per-item failure isolation.

Modelling conventions:
* JavaScript strings are embedded as `List Char` (`Str`); `String.prototype`
  operations (`toLowerCase`, `includes`, `trim`, `split`) are re-implemented
  as structurally recursive list functions so that every definition is
  executable and kernel-reducible.
* JavaScript numbers used by the services are embedded as `ℚ`;
  `Math.round` is round-half-up `⌊q + 1/2⌋` on ℚ.
* The external Gemini oracle (`model.generateContent` + `JSON.parse`) is a
  parameter `oracle : Question → Str → Except Str RawEval`: the parsed JSON
  of a successful call, or the thrown error's message.
* The SMTP transporter (`nodemailer`'s `sendMail`) is a parameter
  `transport : EmailData → Except Str SendInfo`.
* Promise rejection / thrown errors are `Except.error`; mutable service
  state (`this.jobs`, `this.jobIndex`) is explicit state passing on
  `RAGState`.
* `Array.prototype.sort` (stable since ES2019, and V8's sort is stable) is
  embedded as the stable `List.insertionSort`.
-/

/-! ### JavaScript string primitives -/

/-- JavaScript strings, embedded as lists of characters. -/
abbrev Str := List Char

/-- Coerce a Lean string literal to the embedded string type. -/
def str (s : String) : Str := s.data

/-- `s.toLowerCase()`. -/
def jsToLower (s : Str) : Str := s.map Char.toLower

/-- `leadsWith sub hay` is true when `hay` starts with `sub`. -/
def leadsWith : Str → Str → Bool
  | [], _ => true
  | _ :: _, [] => false
  | a :: as, b :: bs => a == b && leadsWith as bs

/-- `hasSubstr sub hay` is true when `sub` occurs contiguously in `hay`. -/
def hasSubstr (sub hay : Str) : Bool :=
  match hay with
  | [] => leadsWith sub []
  | _ :: bs => leadsWith sub hay || hasSubstr sub bs

/-- `s.includes(sub)` — substring test. -/
def jsIncludes (s sub : Str) : Bool := hasSubstr sub s

/-- `s.trim()` — strip leading and trailing whitespace. -/
def jsTrim (s : Str) : Str :=
  ((s.dropWhile Char.isWhitespace).reverse.dropWhile Char.isWhitespace).reverse

/-- `s.split(',')`. -/
def splitOnComma : Str → List Str
  | [] => [[]]
  | c :: rest =>
    match splitOnComma rest with
    | [] => [[c]]
    | r :: rs => if c == ',' then [] :: r :: rs else (c :: r) :: rs

/-- JavaScript `Math.round`: round half toward `+∞`. -/
def jsRound (q : ℚ) : Int := ⌊q + 1 / 2⌋

/-! ### Answer evaluation service (`answerEvaluationService.js`) -/

/-- A question object as produced by the question-generation stage and
consumed by `evaluateAllAnswers` (`q.id`, `q.skill`, `q.question`,
`q.correct_answer`, `q.keywords`). -/
structure Question where
  id : Nat
  skill : Str
  question : Str
  correct_answer : Str
  keywords : List Str
deriving DecidableEq

/-- The JSON object returned by the evaluation oracle, as described in the
prompt of `evaluateAnswer` (lines 39-50). -/
structure RawEval where
  score : ℚ
  accuracy : ℚ
  completeness : ℚ
  clarity : ℚ
  keyword_score : ℚ
  verdict : Str
  feedback : Str
  strengths : List Str
  improvements : List Str
deriving DecidableEq

/-- The value returned by `evaluateAnswer`: the oracle object spread
(`...evaluation`) with `score` clamped and `passed` added. -/
structure AnswerEvaluation where
  score : ℚ
  accuracy : ℚ
  completeness : ℚ
  clarity : ℚ
  keyword_score : ℚ
  verdict : Str
  feedback : Str
  strengths : List Str
  improvements : List Str
  passed : Bool
deriving DecidableEq

/-- `evaluateAnswer` (lines 22-71), with the oracle round trip
(`generateContent` + `JSON.parse`) abstracted into its `Except` outcome.
On success the score is clamped to `[0,100]`
(`Math.max(0, Math.min(100, evaluation.score))`) and
`passed := evaluation.score >= 70`; a thrown error is re-thrown as
`Failed to evaluate answer: ...`. -/
def evaluateAnswer (oracleResponse : Except Str RawEval) :
    Except Str AnswerEvaluation :=
  match oracleResponse with
  | .error e => .error (str "Failed to evaluate answer: " ++ e)
  | .ok ev =>
    let score := max 0 (min 100 ev.score)
    .ok { score := score
          accuracy := ev.accuracy
          completeness := ev.completeness
          clarity := ev.clarity
          keyword_score := ev.keyword_score
          verdict := ev.verdict
          feedback := ev.feedback
          strengths := ev.strengths
          improvements := ev.improvements
          passed := decide ((70:ℚ) ≤ score) }

/-- One entry of `individual_evaluations` pushed by the loop of
`evaluateAllAnswers` (lines 102-108). -/
structure IndividualEvaluation where
  question_id : Nat
  skill : Str
  question : Str
  user_answer : Str
  evaluation : AnswerEvaluation
deriving DecidableEq

/-- The `summary` sub-object of the batch result (lines 122-126). -/
structure EvaluationSummary where
  passed_questions : Nat
  total_questions : Nat
  status : Str
deriving DecidableEq

/-- The object returned by `evaluateAllAnswers` (lines 116-127). -/
structure BatchResult where
  is_verified : Bool
  average_score : Int
  total_score : Int
  passing_threshold : Nat
  individual_evaluations : List IndividualEvaluation
  summary : EvaluationSummary
deriving DecidableEq

/-- The shape-mismatch error message of `evaluateAllAnswers` (line 85). -/
def shapeErrorMsg : Str := str "Number of questions must match number of answers"

/-- The `for` loop of `evaluateAllAnswers` (lines 91-111): sequentially call
`evaluateAnswer` on each question/answer pair, accumulating the
`evaluations` array and `totalScore`.  A failed call rejects the whole
loop (the `await`ed rejection propagates).  The mismatched-length case is
unreachable because `evaluateAllAnswers` checks lengths first. -/
def evalLoop (oracle : Question → Str → Except Str RawEval) :
    List Question → List Str → Except Str (List IndividualEvaluation × ℚ)
  | [], _ => .ok ([], 0)
  | _ :: _, [] => .error shapeErrorMsg
  | q :: qs, a :: as =>
    match evaluateAnswer (oracle q a) with
    | .error e => .error e
    | .ok ev =>
      match evalLoop oracle qs as with
      | .error e => .error e
      | .ok (rest, t) =>
        .ok ({ question_id := q.id
               skill := q.skill
               question := q.question
               user_answer := a
               evaluation := ev } :: rest,
             ev.score + t)

/-- `evaluateAllAnswers` (lines 79-128).  The `Array.isArray` guards are
vacuous under typing; the length check fails fast with
`shapeErrorMsg` before any oracle call.  `averageScore` is
`totalScore / questions.length` (exact in ℚ; `0/0 = 0` in the model plays
the role of JavaScript's `NaN`, whose comparison with the threshold is
likewise false). -/
def evaluateAllAnswers (oracle : Question → Str → Except Str RawEval)
    (questions : List Question) (userAnswers : List Str) :
    Except Str BatchResult :=
  if questions.length ≠ userAnswers.length then .error shapeErrorMsg
  else
    match evalLoop oracle questions userAnswers with
    | .error e => .error e
    | .ok (evaluations, totalScore) =>
      let averageScore : ℚ := totalScore / (questions.length : ℚ)
      .ok { is_verified := decide ((70:ℚ) ≤ averageScore)
            average_score := jsRound averageScore
            total_score := jsRound totalScore
            passing_threshold := 70
            individual_evaluations := evaluations
            summary :=
              { passed_questions :=
                  (evaluations.filter (fun e => e.evaluation.passed)).length
                total_questions := evaluations.length
                status :=
                  if (70:ℚ) ≤ averageScore then str "VERIFIED"
                  else str "NOT_VERIFIED" } }

/-! ### RAG service (`ragService.js`) -/

/-- A job posting as built by `loadJobsData` (lines 33-42). -/
structure Job where
  id : Nat
  company_name : Str
  job_role : Str
  required_skills : List Str
  company_email : Str
  job_description : Str
  location : Str
  salary_range : Str
deriving DecidableEq

/-- A CSV row as delivered by `csv-parser`: each column may be absent. -/
structure Row where
  company_name : Option Str
  job_role : Option Str
  required_skills : Option Str
  company_email : Option Str
  job_description : Option Str
  location : Option Str
  salary_range : Option Str
deriving DecidableEq

/-- `_parseSkills` (lines 156-162): split the raw field on commas, trim
each token, drop empty tokens; a missing or empty (falsy) field gives `[]`. -/
def _parseSkills (skillsString : Option Str) : List Str :=
  match skillsString with
  | none => []
  | some s =>
    if s.isEmpty then []
    else ((splitOnComma s).map jsTrim).filter (fun t => decide (0 < t.length))

/-- The mutable state of `RAGService`: `this.jobs` and `this.jobIndex`
(an object keyed by job id, modelled as an association list where
assignment overwrites an existing key). -/
structure RAGState where
  jobs : List Job
  jobIndex : List (Nat × Job)
deriving DecidableEq

/-- `this.jobIndex[k] = v`: overwrite the binding for `k` if present,
otherwise append it. -/
def indexInsert (ix : List (Nat × Job)) (k : Nat) (v : Job) : List (Nat × Job) :=
  if ix.any (fun p => p.1 == k) then
    ix.map (fun p => if p.1 == k then (k, v) else p)
  else ix ++ [(k, v)]

/-- Build one job from a row (lines 33-42): `id := this.jobs.length + 1`,
missing columns default to the empty string. -/
def buildJob (numLoaded : Nat) (row : Row) : Job :=
  { id := numLoaded + 1
    company_name := row.company_name.getD []
    job_role := row.job_role.getD []
    required_skills := _parseSkills row.required_skills
    company_email := row.company_email.getD []
    job_description := row.job_description.getD []
    location := row.location.getD []
    salary_range := row.salary_range.getD [] }

/-- The `'data'` handler (lines 32-46): push the job and index it. -/
def ingestRow (st : RAGState) (row : Row) : RAGState :=
  let job := buildJob st.jobs.length row
  { jobs := st.jobs ++ [job], jobIndex := indexInsert st.jobIndex job.id job }

/-- `loadJobsData` (lines 20-55).  `source` abstracts the filesystem read:
`none` means `fs.existsSync(csvPath)` is false (the file is missing);
`some rows` is a successful parse of the whole stream.  Note the code
clears `this.jobs`/`this.jobIndex` (lines 22-23) BEFORE the existence
check, so the cleared state is observable even when the load rejects. -/
def loadJobsData (st : RAGState) (csvPath : Str) (source : Option (List Row)) :
    Except Str (List Job) × RAGState :=
  let stCleared : RAGState := { jobs := [], jobIndex := [] }
  match source with
  | none => (.error (str "Jobs CSV file not found: " ++ csvPath), stCleared)
  | some rows =>
    let stFinal := rows.foldl ingestRow stCleared
    (.ok stFinal.jobs, stFinal)

/-- `getAllJobs` (lines 167-169). -/
def getAllJobs (st : RAGState) : List Job := st.jobs

/-- `getJobById` (lines 174-176): `this.jobIndex[jobId] || null`. -/
def getJobById (st : RAGState) (jobId : Nat) : Option Job :=
  (st.jobIndex.find? (fun p => p.1 == jobId)).map (fun p => p.2)

/-- `_calculateMatchScore` (lines 112-130): fraction of the job's required
skills for which some candidate skill passes the case-folded bidirectional
substring test, scaled to 100; zero required skills score 0. -/
def _calculateMatchScore (candidateSkills : List Str) (job : Job) : ℚ :=
  if job.required_skills.length = 0 then 0
  else
    let skillsLower := candidateSkills.map jsToLower
    let requiredLower := job.required_skills.map jsToLower
    let matchCount := requiredLower.countP (fun reqSkill =>
      skillsLower.any (fun cSkill =>
        jsIncludes cSkill reqSkill || jsIncludes reqSkill cSkill))
    (matchCount : ℚ) / (requiredLower.length : ℚ) * 100

/-- `_findMatchedSkills` (lines 136-150): the required skills (original
casing, original order) passing the same containment test. -/
def _findMatchedSkills (candidateSkills : List Str) (job : Job) : List Str :=
  let skillsLower := candidateSkills.map jsToLower
  job.required_skills.filter (fun reqSkill =>
    skillsLower.any (fun cSkill =>
      jsIncludes cSkill (jsToLower reqSkill) ||
      jsIncludes (jsToLower reqSkill) cSkill))

/-- One element of the `matches` array of `retrieveMatchingJobs`
(lines 77-81). -/
structure MatchEntry where
  job : Job
  match_score : ℚ
  matched_skills : List Str
deriving DecidableEq

/-- Descending order on match scores: the comparator
`(a, b) => b.match_score - a.match_score`. -/
def rDesc (a b : MatchEntry) : Prop := b.match_score ≤ a.match_score

instance : DecidableRel rDesc :=
  fun a b => inferInstanceAs (Decidable (b.match_score ≤ a.match_score))

instance : IsTotal MatchEntry rDesc :=
  ⟨fun a b => le_total b.match_score a.match_score⟩

instance : IsTrans MatchEntry rDesc :=
  ⟨fun _ _ _ hab hbc => le_trans hbc hab⟩

/-- The `matches` array (lines 77-81), in catalog order. -/
def matchEntries (candidateSkills : List Str) (jobs : List Job) : List MatchEntry :=
  jobs.map (fun job =>
    { job := job
      match_score := _calculateMatchScore candidateSkills job
      matched_skills := _findMatchedSkills candidateSkills job })

/-- One element of `matched_jobs` in the result (lines 90-101). -/
structure MatchedJob where
  id : Nat
  company_name : Str
  job_role : Str
  company_email : Str
  location : Str
  salary_range : Str
  required_skills : List Str
  match_score : Int
  matched_skills : List Str
  application_status : Str
deriving DecidableEq

/-- Render a match entry into the returned job shape (lines 90-101):
`match_score` is `Math.round`ed, `application_status := "pending"`. -/
def renderMatch (m : MatchEntry) : MatchedJob :=
  { id := m.job.id
    company_name := m.job.company_name
    job_role := m.job.job_role
    company_email := m.job.company_email
    location := m.job.location
    salary_range := m.job.salary_range
    required_skills := m.job.required_skills
    match_score := jsRound m.match_score
    matched_skills := m.matched_skills
    application_status := str "pending" }

/-- The result object of `retrieveMatchingJobs`.  The unverified branch
(lines 70-74) and the verified branch (lines 89-105) return objects with
different fields; absent fields are `none`. -/
structure MatchResult where
  matched_jobs : List MatchedJob
  message : Option Str
  reason : Option Str
  total_matches : Option Nat
  candidate_score : Option Int
  verification_status : Option Str
deriving DecidableEq

/-- `retrieveMatchingJobs` (lines 64-106): throw on an empty catalog; gate
unverified candidates; otherwise score every job, sort (stably) by score
descending, keep scores ≥ 40, and return the first `topK`. -/
def retrieveMatchingJobs (st : RAGState) (candidateSkills : List Str)
    (evaluationResult : BatchResult) (topK : Nat) : Except Str MatchResult :=
  if st.jobs.length = 0 then
    .error (str "No jobs loaded. Call loadJobsData first.")
  else if evaluationResult.is_verified = false then
    .ok { matched_jobs := []
          message := some (str "Candidate not verified. No job applications sent.")
          reason := some (str "verification_failed")
          total_matches := none
          candidate_score := none
          verification_status := none }
  else
    let matchesArr := matchEntries candidateSkills st.jobs
    let sorted := List.insertionSort rDesc matchesArr
    let filteredMatches := sorted.filter (fun m => decide ((40:ℚ) ≤ m.match_score))
    .ok { matched_jobs := (filteredMatches.take topK).map renderMatch
          message := none
          reason := none
          total_matches := some filteredMatches.length
          candidate_score := some evaluationResult.average_score
          verification_status := some (str "VERIFIED") }

/-! ### Email service (batch application dispatch) -/

/-- The `emailData` argument of `sendApplicationEmail` (lines 122-123 of
the email service). -/
structure EmailData where
  toAddr : Str
  candidateName : Str
  jobRole : Str
  companyName : Str
deriving DecidableEq

/-- The info object resolved by the SMTP transporter's `sendMail`. -/
structure SendInfo where
  messageId : Str
  timestamp : Str
deriving DecidableEq

/-- The value returned by `sendApplicationEmail` on success
(lines 168-173). -/
structure SendResult where
  success : Bool
  messageId : Str
  toAddr : Str
  timestamp : Str
deriving DecidableEq

/-- One element of the `results` array of `sendBatchApplications`
(lines 201-216). -/
structure AppRecord where
  company : Str
  jobRole : Str
  email : Str
  status : Str
  timestamp : Option Str
  error : Option Str
deriving DecidableEq

/-- `sendApplicationEmail` (lines 122-177): delegate to the transporter;
wrap a transporter rejection as
`Failed to send email to ${to}: ${message}`. -/
def sendApplicationEmail (transport : EmailData → Except Str SendInfo)
    (emailData : EmailData) : Except Str SendResult :=
  match transport emailData with
  | .ok info =>
    .ok { success := true
          messageId := info.messageId
          toAddr := emailData.toAddr
          timestamp := info.timestamp }
  | .error e =>
    .error (str "Failed to send email to " ++ emailData.toAddr ++ str ": " ++ e)

/-- The per-job email payload built inside the loop of
`sendBatchApplications` (lines 191-198); `candidateName` is
`candidateInfo.name`. -/
def emailDataFor (job : MatchedJob) (candidateName : Str) : EmailData :=
  { toAddr := job.company_email
    candidateName := candidateName
    jobRole := job.job_role
    companyName := job.company_name }

/-- The record pushed for one job (lines 201-216): a successful send gives
a `sent` record with the result's timestamp; a caught error gives a
`failed` record carrying the error message. -/
def recordFor (transport : EmailData → Except Str SendInfo)
    (candidateName : Str) (job : MatchedJob) : AppRecord :=
  match sendApplicationEmail transport (emailDataFor job candidateName) with
  | .ok result =>
    { company := job.company_name
      jobRole := job.job_role
      email := job.company_email
      status := str "sent"
      timestamp := some result.timestamp
      error := none }
  | .error e =>
    { company := job.company_name
      jobRole := job.job_role
      email := job.company_email
      status := str "failed"
      timestamp := none
      error := some e }

/-- `sendBatchApplications` (lines 186-223): process the matched jobs one
at a time, in order, catching each failure; the inter-item `setTimeout`
delay is pure scheduling and has no effect on the produced records. -/
def sendBatchApplications (transport : EmailData → Except Str SendInfo)
    (matchedJobs : List MatchedJob) (candidateName : Str) : List AppRecord :=
  matchedJobs.map (recordFor transport candidateName)

/-! ### Helper lemmas -/

/-- The empty string is a substring of every string (`"x".includes("")`). -/
theorem hasSubstr_nil (hay : Str) : hasSubstr [] hay = true := by
  cases hay <;> simp [hasSubstr, leadsWith]

/-- A nonempty list has nonzero length (bridging the two emptiness tests). -/
theorem length_ne_zero_of_ne_nil {l : List Job} (h : l ≠ []) : ¬ (l.length = 0) := by
  simpa [List.length_eq_zero] using h

/-! ### Concrete fixtures used by witnesses and counterexamples -/

/-- A sample loaded job. -/
def jobA : Job :=
  { id := 1
    company_name := str "Acme"
    job_role := str "Developer"
    required_skills := [str "python"]
    company_email := str "hr@acme.com"
    job_description := str "Backend work"
    location := str "Remote"
    salary_range := str "10-20" }

/-- A catalog state holding `jobA`. -/
def stateWithJobA : RAGState := { jobs := [jobA], jobIndex := [(1, jobA)] }

/-- A catalog state with no jobs loaded. -/
def emptyState : RAGState := { jobs := [], jobIndex := [] }

/-- An unverified evaluation result. -/
def unverifiedResult : BatchResult :=
  { is_verified := false
    average_score := 50
    total_score := 250
    passing_threshold := 70
    individual_evaluations := []
    summary := { passed_questions := 0, total_questions := 5, status := str "NOT_VERIFIED" } }

/-- A verified evaluation result. -/
def verifiedResult : BatchResult :=
  { is_verified := true
    average_score := 85
    total_score := 425
    passing_threshold := 70
    individual_evaluations := []
    summary := { passed_questions := 5, total_questions := 5, status := str "VERIFIED" } }

/-! ### C2 — loadJobsData on a missing file -/

/-- C2 (counterexample): with `jobA` loaded, calling `loadJobsData` on a
missing CSV file rejects, but the previously loaded catalog does NOT
remain intact: `getAllJobs` returns `[]` and `getJobById 1` returns
`null` on the post-call state, because the code clears `this.jobs` and
`this.jobIndex` before checking that the file exists. -/
theorem loadJobsData_missing_destroys_catalog :
    getAllJobs stateWithJobA = [jobA] ∧
    (loadJobsData stateWithJobA (str "jobsdata.csv") none).1 =
      Except.error (str "Jobs CSV file not found: jobsdata.csv") ∧
    getAllJobs (loadJobsData stateWithJobA (str "jobsdata.csv") none).2 = [] ∧
    getJobById (loadJobsData stateWithJobA (str "jobsdata.csv") none).2 1 = none :=
  ⟨rfl, rfl, rfl, rfl⟩

/-- C2 (amended): for every prior catalog state, loading from a missing
source fails with the file-not-found error, and the resulting state is the
cleared catalog: `getAllJobs` is `[]` and `getJobById` is `null` for every
id.  The previous catalog is destroyed, not preserved. -/
theorem loadJobsData_missing_fails_and_clears (st : RAGState) (csvPath : Str) :
    (loadJobsData st csvPath none).1 =
      Except.error (str "Jobs CSV file not found: " ++ csvPath) ∧
    getAllJobs (loadJobsData st csvPath none).2 = [] ∧
    ∀ jobId, getJobById (loadJobsData st csvPath none).2 jobId = none :=
  ⟨rfl, rfl, fun _ => rfl⟩

/-! ### C3 — the verification gate of retrieveMatchingJobs -/

/-- C3 (counterexample): the gate does not hold for EVERY catalog state:
with an empty catalog and an unverified result, `retrieveMatchingJobs`
throws `No jobs loaded. Call loadJobsData first.` instead of returning the
empty `verification_failed` result. -/
theorem retrieve_unverified_empty_catalog_throws :
    retrieveMatchingJobs emptyState [str "python"] unverifiedResult 5 =
      Except.error (str "No jobs loaded. Call loadJobsData first.") :=
  rfl

/-- C3 (amended): for every NON-EMPTY catalog, every candidate skill list
and every unverified evaluation result, `retrieveMatchingJobs` returns the
constant empty result with `reason = "verification_failed"` and a
human-readable message; the result does not depend on `candidateSkills`
(no match score is computed or exposed). -/
theorem retrieve_unverified_gate (st : RAGState) (candidateSkills : List Str)
    (er : BatchResult) (topK : Nat) (hjobs : st.jobs ≠ [])
    (hv : er.is_verified = false) :
    retrieveMatchingJobs st candidateSkills er topK =
      Except.ok
        { matched_jobs := []
          message := some (str "Candidate not verified. No job applications sent.")
          reason := some (str "verification_failed")
          total_matches := none
          candidate_score := none
          verification_status := none } := by
  rw [retrieveMatchingJobs, if_neg (length_ne_zero_of_ne_nil hjobs), if_pos hv]

/-- C3 (witness): the amended gate at a concrete non-empty catalog. -/
theorem retrieve_unverified_gate_witness :
    retrieveMatchingJobs stateWithJobA [] unverifiedResult 5 =
      Except.ok
        { matched_jobs := []
          message := some (str "Candidate not verified. No job applications sent.")
          reason := some (str "verification_failed")
          total_matches := none
          candidate_score := none
          verification_status := none } :=
  retrieve_unverified_gate stateWithJobA [] unverifiedResult 5
    (by simp [stateWithJobA]) rfl

/-! ### C10 — the empty batch -/

/-- C10: `evaluateAllAnswers` on two empty arrays passes the shape check,
makes no oracle call (the result does not depend on the oracle), and
returns a result with `is_verified = false` and zero passed questions.
(In ℚ the average `0 / 0` is `0`, mirroring JavaScript where the `NaN`
average compares false against the threshold.) -/
theorem evaluateAll_empty_batch (oracle : Question → Str → Except Str RawEval) :
    ∃ r, evaluateAllAnswers oracle [] [] = Except.ok r ∧
      r.is_verified = false ∧
      r.summary.passed_questions = 0 ∧
      r.summary.total_questions = 0 ∧
      ∀ oracle2,
        evaluateAllAnswers oracle2 ([] : List Question) ([] : List Str) =
          evaluateAllAnswers oracle [] [] := by
  refine ⟨_, rfl, ?_, rfl, rfl, fun _ => rfl⟩
  show decide ((70:ℚ) ≤ 0 / ((List.length ([] : List Question) : ℕ) : ℚ)) = false
  simp only [List.length_nil, Nat.cast_zero, div_zero]
  decide

/-! ### C6 — evaluateAnswer clamps but does not validate the subscore sum -/

/-- An oracle response whose `score` is in range but inconsistent with the
sum of its subscores. -/
def overclaimEval : RawEval :=
  { score := 50, accuracy := 40, completeness := 30, clarity := 20
    keyword_score := 10, verdict := str "pass", feedback := str "ok"
    strengths := [], improvements := [] }

/-- The evaluation returned for `overclaimEval`. -/
def overclaimReturned : AnswerEvaluation :=
  { score := 50, accuracy := 40, completeness := 30, clarity := 20
    keyword_score := 10, verdict := str "pass", feedback := str "ok"
    strengths := [], improvements := [], passed := false }

/-- C6 (counterexample): the oracle may return `score = 50` with subscores
summing to 100; `evaluateAnswer` returns it unchanged — the invariant
`score == accuracy + completeness + clarity + keyword_score` is neither
validated nor clamped. -/
theorem evaluateAnswer_sum_not_validated :
    evaluateAnswer (Except.ok overclaimEval) = Except.ok overclaimReturned ∧
    overclaimReturned.score ≠
      overclaimReturned.accuracy + overclaimReturned.completeness +
        overclaimReturned.clarity + overclaimReturned.keyword_score := by
  constructor
  · have hmin : min (100:ℚ) 50 = 50 := min_eq_right (by norm_num)
    have hmax : max (0:ℚ) 50 = 50 := max_eq_right (by norm_num)
    simp [evaluateAnswer, overclaimEval, overclaimReturned, hmin, hmax]
    norm_num
  · show (50:ℚ) ≠ 40 + 30 + 20 + 10
    norm_num

/-- C6 (amended): every successful `evaluateAnswer` clamps `score` to
`[0,100]` (even for out-of-range oracle values) and sets
`passed = (score ≥ 70)` on the clamped score, passing all four subscores
through untouched; the subscore-sum invariant is not enforced. -/
theorem evaluateAnswer_clamps (ev : RawEval) :
    ∃ r, evaluateAnswer (Except.ok ev) = Except.ok r ∧
      (0:ℚ) ≤ r.score ∧ r.score ≤ 100 ∧
      r.score = max 0 (min 100 ev.score) ∧
      r.accuracy = ev.accuracy ∧ r.completeness = ev.completeness ∧
      r.clarity = ev.clarity ∧ r.keyword_score = ev.keyword_score ∧
      r.passed = decide ((70:ℚ) ≤ r.score) := by
  refine ⟨_, rfl, ?_, ?_, rfl, rfl, rfl, rfl, rfl, rfl⟩
  · exact le_max_left 0 _
  · exact max_le (by norm_num) (min_le_left 100 ev.score)

/-! ### C7 — fail-fast shape check and batch abort on oracle failure -/

/-- If the oracle fails on some question/answer pair of the batch, the
evaluation loop rejects. -/
theorem evalLoop_error_of_oracle_error
    (oracle : Question → Str → Except Str RawEval) :
    ∀ (qs : List Question) (as : List Str),
      (∃ p ∈ qs.zip as, ∃ e, oracle p.1 p.2 = Except.error e) →
      ∃ e, evalLoop oracle qs as = Except.error e := by
  intro qs
  induction qs with
  | nil => intro as h; simp at h
  | cons q qs ih =>
    intro as h
    cases as with
    | nil => simp at h
    | cons a as =>
      obtain ⟨p, hp, e, he⟩ := h
      rw [List.zip_cons_cons, List.mem_cons] at hp
      cases hp with
      | inl hpe =>
        subst hpe
        exact ⟨str "Failed to evaluate answer: " ++ e,
          by simp [evalLoop, evaluateAnswer, he]⟩
      | inr hpt =>
        cases hE : evaluateAnswer (oracle q a) with
        | error e2 => exact ⟨e2, by simp [evalLoop, hE]⟩
        | ok ev =>
          obtain ⟨e2, h2⟩ := ih as ⟨p, hpt, e, he⟩
          exact ⟨e2, by simp [evalLoop, hE, h2]⟩

/-- C7: (a) if the two arrays disagree in length, `evaluateAllAnswers`
fails with the shape-mismatch error, and the outcome is independent of the
oracle (no oracle call can influence it); (b) if the oracle fails on any
question/answer pair of the batch, the whole call fails with an error — no
aggregate result is produced from the partial evaluations. -/
theorem evaluateAll_failfast_and_abort
    (oracle : Question → Str → Except Str RawEval)
    (questions : List Question) (userAnswers : List Str) :
    (questions.length ≠ userAnswers.length →
      evaluateAllAnswers oracle questions userAnswers =
        Except.error shapeErrorMsg ∧
      ∀ oracle2, evaluateAllAnswers oracle2 questions userAnswers =
        Except.error shapeErrorMsg) ∧
    ((∃ p ∈ questions.zip userAnswers, ∃ e, oracle p.1 p.2 = Except.error e) →
      ∃ e, evaluateAllAnswers oracle questions userAnswers =
        Except.error e) := by
  constructor
  · intro hne
    exact ⟨by simp [evaluateAllAnswers, hne], fun o2 => by
      simp [evaluateAllAnswers, hne]⟩
  · intro h
    by_cases hlen : questions.length ≠ userAnswers.length
    · exact ⟨shapeErrorMsg, by simp [evaluateAllAnswers, hlen]⟩
    · obtain ⟨e, he⟩ :=
        evalLoop_error_of_oracle_error oracle questions userAnswers h
      exact ⟨e, by simp [evaluateAllAnswers, hlen, he]⟩

/-- A sample question for concrete runs. -/
def qW : Question :=
  { id := 1, skill := str "python", question := str "What is Python?"
    correct_answer := str "A language", keywords := [str "python"] }

/-- An oracle that always fails. -/
def oracleBad : Question → Str → Except Str RawEval :=
  fun _ _ => .error (str "boom")

/-- An oracle that always returns a fixed in-range evaluation. -/
def oracleGood : Question → Str → Except Str RawEval :=
  fun _ _ =>
    .ok { score := 80, accuracy := 35, completeness := 25, clarity := 12
          keyword_score := 8, verdict := str "pass", feedback := str "good"
          strengths := [], improvements := [] }

/-- C7 (witness): a concrete mismatched batch fails with the shape error,
and a concrete batch whose oracle call fails rejects as a whole. -/
theorem evaluateAll_failfast_and_abort_witness :
    evaluateAllAnswers oracleGood [qW] [] = Except.error shapeErrorMsg ∧
    ∃ e, evaluateAllAnswers oracleBad [qW] [str "hi"] = Except.error e :=
  ⟨((evaluateAll_failfast_and_abort oracleGood [qW] []).1 (by decide)).1,
   (evaluateAll_failfast_and_abort oracleBad [qW] [str "hi"]).2
     ⟨(qW, str "hi"), by simp, str "boom", rfl⟩⟩

/-! ### C5 — the match-score formula and matched-skills list -/

/-- The spec's skill-containment test: some candidate skill, case-folded,
is a substring of the (case-folded) required skill, or vice versa. -/
def specContainmentTest (candidateSkills : List Str) (req : Str) : Bool :=
  candidateSkills.any (fun c =>
    jsIncludes (jsToLower c) (jsToLower req) ||
    jsIncludes (jsToLower req) (jsToLower c))

/-- Spec-side score: `(count of required skills with ≥ 1 match) /
(total required skills) * 100`, and `0` for a job with no required
skills. -/
def specMatchScore (candidateSkills : List Str) (job : Job) : ℚ :=
  if job.required_skills.length = 0 then 0
  else
    ((job.required_skills.countP (specContainmentTest candidateSkills) : ℚ) /
      (job.required_skills.length : ℚ)) * 100

/-- Spec-side matched-skills list: the required skills (original casing,
original order) passing the containment test. -/
def specMatchedSkills (candidateSkills : List Str) (job : Job) : List Str :=
  job.required_skills.filter (specContainmentTest candidateSkills)

/-- The code's score agrees with the spec formula. -/
theorem calc_eq_spec (candidateSkills : List Str) (job : Job) :
    _calculateMatchScore candidateSkills job =
      specMatchScore candidateSkills job := by
  unfold _calculateMatchScore specMatchScore specContainmentTest
  simp [List.countP_map, List.any_map, Function.comp_def, jsIncludes]

/-- The code's matched-skills list agrees with the spec. -/
theorem find_eq_spec (candidateSkills : List Str) (job : Job) :
    _findMatchedSkills candidateSkills job =
      specMatchedSkills candidateSkills job := by
  unfold _findMatchedSkills specMatchedSkills specContainmentTest
  simp [List.any_map, Function.comp_def, jsIncludes]

/-- C5: the match score is exactly the spec's formula (matching fraction
× 100), a job with zero required skills scores `0` (no division) and can
never reach the 40-point floor, and the matched-skills list is exactly the
required skills (original casing and order) passing the bidirectional
containment test. -/
theorem matchScore_formula (candidateSkills : List Str) (job : Job) :
    _calculateMatchScore candidateSkills job =
      specMatchScore candidateSkills job ∧
    _findMatchedSkills candidateSkills job =
      specMatchedSkills candidateSkills job ∧
    (job.required_skills = [] →
      _calculateMatchScore candidateSkills job = 0 ∧
      ¬ ((40:ℚ) ≤ _calculateMatchScore candidateSkills job)) := by
  refine ⟨calc_eq_spec _ _, find_eq_spec _ _, ?_⟩
  intro h
  have h0 : _calculateMatchScore candidateSkills job = 0 := by
    unfold _calculateMatchScore
    rw [if_pos (by simp [h])]
  exact ⟨h0, by rw [h0]; norm_num⟩

/-- A job with no required skills. -/
def jobNoSkills : Job :=
  { id := 7, company_name := str "NoReq", job_role := str "Intern"
    required_skills := [], company_email := str "n@x.com"
    job_description := str "", location := str "", salary_range := str "" }

/-- C5 (witness): the zero-required-skills branch at a concrete job. -/
theorem matchScore_formula_witness :
    _calculateMatchScore [str "Python"] jobNoSkills = 0 ∧
    ¬ ((40:ℚ) ≤ _calculateMatchScore [str "Python"] jobNoSkills) :=
  (matchScore_formula [str "Python"] jobNoSkills).2.2 rfl

/-! ### C8 — batch dispatch: per-item failure isolation, order, totality -/

/-- A successful transporter call yields a `sent` record carrying the
result's timestamp. -/
theorem recordFor_ok (transport : EmailData → Except Str SendInfo)
    (candidateName : Str) (job : MatchedJob) (info : SendInfo)
    (h : transport (emailDataFor job candidateName) = Except.ok info) :
    recordFor transport candidateName job =
      { company := job.company_name, jobRole := job.job_role
        email := job.company_email, status := str "sent"
        timestamp := some info.timestamp, error := none } := by
  simp [recordFor, sendApplicationEmail, h]

/-- A rejected transporter call yields a `failed` record carrying the
wrapped error message. -/
theorem recordFor_err (transport : EmailData → Except Str SendInfo)
    (candidateName : Str) (job : MatchedJob) (e : Str)
    (h : transport (emailDataFor job candidateName) = Except.error e) :
    recordFor transport candidateName job =
      { company := job.company_name, jobRole := job.job_role
        email := job.company_email, status := str "failed"
        timestamp := none
        error := some (str "Failed to send email to " ++ job.company_email ++
          str ": " ++ e) } := by
  simp [recordFor, sendApplicationEmail, h]
  rfl

/-- C8: `sendBatchApplications` always completes with exactly one record
per input job, in the input (ranking) order: the `i`-th record carries the
`i`-th job's company, role and email, its status is terminal
(`sent` or `failed`), a transporter success yields `sent` with the
timestamp, and a transporter failure is caught and recorded as `failed`
with the error detail — it never aborts the rest of the batch. -/
theorem sendBatch_per_item (transport : EmailData → Except Str SendInfo)
    (matchedJobs : List MatchedJob) (candidateName : Str) (i : Nat)
    (hi : i < matchedJobs.length) :
    (sendBatchApplications transport matchedJobs candidateName).length =
      matchedJobs.length ∧
    ∃ r, (sendBatchApplications transport matchedJobs candidateName)[i]? =
        some r ∧
      r.company = matchedJobs[i].company_name ∧
      r.jobRole = matchedJobs[i].job_role ∧
      r.email = matchedJobs[i].company_email ∧
      (r.status = str "sent" ∨ r.status = str "failed") ∧
      (∀ info, transport (emailDataFor matchedJobs[i] candidateName) =
          Except.ok info →
        r.status = str "sent" ∧ r.timestamp = some info.timestamp ∧
        r.error = none) ∧
      (∀ e, transport (emailDataFor matchedJobs[i] candidateName) =
          Except.error e →
        r.status = str "failed" ∧ r.timestamp = none ∧
        r.error = some (str "Failed to send email to " ++
          matchedJobs[i].company_email ++ str ": " ++ e)) := by
  refine ⟨by simp [sendBatchApplications], ?_⟩
  refine ⟨recordFor transport candidateName matchedJobs[i], ?_, ?_⟩
  · simp [sendBatchApplications, List.getElem?_map,
      List.getElem?_eq_getElem hi]
  · cases h : transport (emailDataFor matchedJobs[i] candidateName) with
    | ok info =>
      rw [recordFor_ok transport candidateName matchedJobs[i] info h]
      refine ⟨rfl, rfl, rfl, Or.inl rfl, ?_, ?_⟩
      · intro info2 h2
        cases h2
        exact ⟨rfl, rfl, rfl⟩
      · intro e h2
        simp at h2
    | error e =>
      rw [recordFor_err transport candidateName matchedJobs[i] e h]
      refine ⟨rfl, rfl, rfl, Or.inr rfl, ?_, ?_⟩
      · intro info2 h2
        simp at h2
      · intro e2 h2
        cases h2
        exact ⟨rfl, rfl, rfl⟩

/-- A first matched job whose address the transporter accepts. -/
def mjob1 : MatchedJob :=
  { id := 1, company_name := str "Acme", job_role := str "Developer"
    company_email := str "hr@acme.com", location := str "Remote"
    salary_range := str "10-20", required_skills := [str "python"]
    match_score := 100, matched_skills := [str "python"]
    application_status := str "pending" }

/-- A second matched job whose address the transporter rejects. -/
def mjob2 : MatchedJob :=
  { id := 2, company_name := str "Bx", job_role := str "QA"
    company_email := str "bad@bx.com", location := str ""
    salary_range := str "", required_skills := [str "sql"]
    match_score := 50, matched_skills := [str "sql"]
    application_status := str "pending" }

/-- A transporter that rejects exactly the `bad@bx.com` recipient. -/
def transportW : EmailData → Except Str SendInfo :=
  fun d =>
    if d.toAddr = str "bad@bx.com" then .error (str "rejected")
    else .ok { messageId := str "m1", timestamp := str "t1" }

/-- C8 (witness): a concrete two-job batch whose second send fails still
produces two records, and the second record is the `failed` one. -/
theorem sendBatch_per_item_witness :
    (sendBatchApplications transportW [mjob1, mjob2] (str "Alice")).length =
      2 ∧
    ∃ r, (sendBatchApplications transportW [mjob1, mjob2] (str "Alice"))[1]? =
        some r ∧
      r.company = mjob2.company_name ∧
      r.jobRole = mjob2.job_role ∧
      r.email = mjob2.company_email ∧
      (r.status = str "sent" ∨ r.status = str "failed") ∧
      (∀ info, transportW (emailDataFor mjob2 (str "Alice")) =
          Except.ok info →
        r.status = str "sent" ∧ r.timestamp = some info.timestamp ∧
        r.error = none) ∧
      (∀ e, transportW (emailDataFor mjob2 (str "Alice")) =
          Except.error e →
        r.status = str "failed" ∧ r.timestamp = none ∧
        r.error = some (str "Failed to send email to " ++
          mjob2.company_email ++ str ": " ++ e)) :=
  sendBatch_per_item transportW [mjob1, mjob2] (str "Alice") 1 (by decide)

/-! ### Shared machinery for the verified matching path (C4, C9) -/

/-- `Math.round` is monotone. -/
theorem jsRound_mono {a b : ℚ} (h : a ≤ b) : jsRound a ≤ jsRound b :=
  Int.floor_le_floor (by linarith)

/-- A score at or above the 40-point floor rounds to at least 40. -/
theorem le_jsRound_of_forty_le {a : ℚ} (h : (40:ℚ) ≤ a) :
    (40:Int) ≤ jsRound a := by
  rw [jsRound, Int.le_floor]
  push_cast
  linarith

/-- Unfolding of the verified branch of `retrieveMatchingJobs`. -/
theorem retrieve_verified_ok (st : RAGState) (candidateSkills : List Str)
    (er : BatchResult) (topK : Nat) (hjobs : st.jobs ≠ [])
    (hv : er.is_verified = true) :
    retrieveMatchingJobs st candidateSkills er topK =
      Except.ok
        { matched_jobs :=
            ((((List.insertionSort rDesc
                (matchEntries candidateSkills st.jobs)).filter
                (fun m => decide ((40:ℚ) ≤ m.match_score))).take topK).map
              renderMatch)
          message := none
          reason := none
          total_matches :=
            some ((List.insertionSort rDesc
              (matchEntries candidateSkills st.jobs)).filter
              (fun m => decide ((40:ℚ) ≤ m.match_score))).length
          candidate_score := some er.average_score
          verification_status := some (str "VERIFIED") } := by
  rw [retrieveMatchingJobs, if_neg (length_ne_zero_of_ne_nil hjobs),
    if_neg (by simp [hv])]

/-- The filtered-match count over the sorted array equals the count of
catalog jobs whose score clears the 40 floor. -/
theorem filtered_length_eq_countP (candidateSkills : List Str)
    (jobs : List Job) :
    ((List.insertionSort rDesc (matchEntries candidateSkills jobs)).filter
      (fun m => decide ((40:ℚ) ≤ m.match_score))).length =
      jobs.countP
        (fun j => decide ((40:ℚ) ≤ _calculateMatchScore candidateSkills j)) := by
  rw [← List.countP_eq_length_filter]
  rw [(List.perm_insertionSort rDesc
    (matchEntries candidateSkills jobs)).countP_eq]
  rw [matchEntries, List.countP_map]
  rfl

/-- Inserting an element whose key is selected by `p`, when every element
it jumps over is rejected by `p`, prepends it to the filtered list. -/
theorem filter_orderedInsert_pos (p : MatchEntry → Bool) (a : MatchEntry)
    (l : List MatchEntry) (hpa : p a = true)
    (hkey : ∀ b ∈ l, ¬ rDesc a b → p b = false) :
    (List.orderedInsert rDesc a l).filter p = a :: l.filter p := by
  induction l with
  | nil => simp [List.orderedInsert, hpa]
  | cons b t ih =>
    by_cases hab : rDesc a b
    · rw [List.orderedInsert, if_pos hab, List.filter_cons_of_pos hpa]
    · have hpb : p b = false := hkey b (List.mem_cons_self b t) hab
      rw [List.orderedInsert, if_neg hab]
      rw [List.filter_cons_of_neg (by simp [hpb]),
        List.filter_cons_of_neg (by simp [hpb])]
      exact ih (fun c hc hnac => hkey c (List.mem_cons_of_mem _ hc) hnac)

/-- Inserting an element rejected by `p` leaves the filtered list
unchanged. -/
theorem filter_orderedInsert_neg (p : MatchEntry → Bool) (a : MatchEntry)
    (l : List MatchEntry) (hpa : p a = false) :
    (List.orderedInsert rDesc a l).filter p = l.filter p := by
  induction l with
  | nil => simp [List.orderedInsert, hpa]
  | cons b t ih =>
    by_cases hab : rDesc a b
    · rw [List.orderedInsert, if_pos hab,
        List.filter_cons_of_neg (by simp [hpa])]
    · rw [List.orderedInsert, if_neg hab]
      by_cases hpb : p b = true
      · rw [List.filter_cons_of_pos hpb, List.filter_cons_of_pos hpb, ih]
      · rw [List.filter_cons_of_neg (by simpa using hpb),
          List.filter_cons_of_neg (by simpa using hpb), ih]

/-- Stability of the sort: for every score value `s`, the entries of score
`s` appear in the sorted array exactly as they appear in the input
(catalog) order. -/
theorem filter_insertionSort_score (l : List MatchEntry) (s : ℚ) :
    (List.insertionSort rDesc l).filter
        (fun m => decide (m.match_score = s)) =
      l.filter (fun m => decide (m.match_score = s)) := by
  induction l with
  | nil => rfl
  | cons a t ih =>
    rw [List.insertionSort]
    by_cases hpa : a.match_score = s
    · rw [filter_orderedInsert_pos _ a _ (by simp [hpa]) ?hkey, ih,
        List.filter_cons_of_pos (by simp [hpa])]
      case hkey =>
        intro b _ hnab
        rw [decide_eq_false_iff_not]
        intro hbs
        exact hnab (by rw [rDesc, hbs, hpa])
    · rw [filter_orderedInsert_neg _ a _ (by simp [hpa]), ih,
        List.filter_cons_of_neg (by simp [hpa])]

/-! ### C4 — ranking of the verified matching path -/

/-- The guaranteed shape of a verified match result: every returned job
clears the 40-point floor, scores are in descending order, at most `topK`
entries are returned, `total_matches` counts ALL catalog jobs clearing the
floor (independently of `topK`), and the sort is stable — per score value
the sorted array preserves the catalog order of the entries. -/
def RankedResultSpec (st : RAGState) (candidateSkills : List Str)
    (topK : Nat) (res : MatchResult) : Prop :=
  (∀ m ∈ res.matched_jobs, (40:Int) ≤ m.match_score) ∧
  res.matched_jobs.Pairwise (fun a b => b.match_score ≤ a.match_score) ∧
  res.matched_jobs.length ≤ topK ∧
  res.total_matches =
    some (st.jobs.countP
      (fun j => decide ((40:ℚ) ≤ _calculateMatchScore candidateSkills j))) ∧
  ∀ s : ℚ,
    (List.insertionSort rDesc (matchEntries candidateSkills st.jobs)).filter
        (fun m => decide (m.match_score = s)) =
      (matchEntries candidateSkills st.jobs).filter
        (fun m => decide (m.match_score = s))

/-- C4: on a non-empty catalog with a verified candidate,
`retrieveMatchingJobs` succeeds and its result satisfies
`RankedResultSpec`: 40-floor on every returned job, descending sort with
stable (catalog-order) tie-break, `topK` truncation with the full
filtered count in `total_matches`; and the call is deterministic — the
same inputs give the same ranked output. -/
theorem retrieve_verified_ranked (st : RAGState) (candidateSkills : List Str)
    (er : BatchResult) (topK : Nat) (hjobs : st.jobs ≠ [])
    (hv : er.is_verified = true) :
    ∃ res, retrieveMatchingJobs st candidateSkills er topK = Except.ok res ∧
      RankedResultSpec st candidateSkills topK res ∧
      retrieveMatchingJobs st candidateSkills er topK =
        retrieveMatchingJobs st candidateSkills er topK := by
  refine ⟨_, retrieve_verified_ok st candidateSkills er topK hjobs hv,
    ⟨?_, ?_, ?_, ?_, ?_⟩, rfl⟩
  · intro m hm
    obtain ⟨m', hm', rfl⟩ := List.mem_map.mp hm
    have hmF := (List.take_sublist topK _).subset hm'
    have h40 := of_decide_eq_true (List.mem_filter.mp hmF).2
    exact le_jsRound_of_forty_le h40
  · have hs : (List.insertionSort rDesc
        (matchEntries candidateSkills st.jobs)).Pairwise rDesc :=
      List.sorted_insertionSort rDesc (matchEntries candidateSkills st.jobs)
    have hT : ((((List.insertionSort rDesc
        (matchEntries candidateSkills st.jobs)).filter
        (fun m => decide ((40:ℚ) ≤ m.match_score))).take topK)).Pairwise rDesc :=
      hs.sublist ((List.take_sublist _ _).trans (List.filter_sublist _))
    exact List.pairwise_map.mpr (hT.imp fun hab => jsRound_mono hab)
  · rw [List.length_map]
    exact List.length_take_le topK _
  · simp only [Option.some.injEq]
    exact filtered_length_eq_countP candidateSkills st.jobs
  · exact filter_insertionSort_score (matchEntries candidateSkills st.jobs)

/-- C4 (witness): the ranked-result guarantees at a concrete catalog and
verified result. -/
theorem retrieve_verified_ranked_witness :
    ∃ res, retrieveMatchingJobs stateWithJobA [str "python"]
        verifiedResult 5 = Except.ok res ∧
      RankedResultSpec stateWithJobA [str "python"] 5 res ∧
      retrieveMatchingJobs stateWithJobA [str "python"] verifiedResult 5 =
        retrieveMatchingJobs stateWithJobA [str "python"] verifiedResult 5 :=
  retrieve_verified_ranked stateWithJobA [str "python"] verifiedResult 5
    (by simp [stateWithJobA]) rfl

/-! ### C9 — the empty candidate skill -/

/-- An empty candidate skill passes the containment test against every
required skill, because the empty string is a substring of everything. -/
theorem specContainmentTest_of_empty_mem {candidateSkills : List Str}
    (h : [] ∈ candidateSkills) (req : Str) :
    specContainmentTest candidateSkills req = true := by
  rw [specContainmentTest, List.any_eq_true]
  refine ⟨[], h, ?_⟩
  simp [jsToLower, jsIncludes, hasSubstr_nil]

/-- C9: if the candidate skill list contains the empty string, every job
with at least one required skill scores exactly 100 and its matched-skills
list is its entire required-skills list; consequently for a verified
candidate the matcher's `total_matches` counts every catalog job that has
any required skill. -/
theorem emptySkill_matches_all (candidateSkills : List Str) (job : Job)
    (st : RAGState) (er : BatchResult) (topK : Nat)
    (hmem : [] ∈ candidateSkills) (hreq : job.required_skills ≠ [])
    (hjobs : st.jobs ≠ []) (hv : er.is_verified = true) :
    _calculateMatchScore candidateSkills job = 100 ∧
    _findMatchedSkills candidateSkills job = job.required_skills ∧
    ∃ res, retrieveMatchingJobs st candidateSkills er topK =
        Except.ok res ∧
      res.total_matches =
        some (st.jobs.countP (fun j => !j.required_skills.isEmpty)) := by
  have hscore : ∀ j : Job, j.required_skills ≠ [] →
      _calculateMatchScore candidateSkills j = 100 := by
    intro j hj
    rw [calc_eq_spec, specMatchScore]
    have hn : j.required_skills.length ≠ 0 := by
      simpa [List.length_eq_zero] using hj
    rw [if_neg hn,
      List.countP_eq_length.mpr
        (fun a _ => specContainmentTest_of_empty_mem hmem a)]
    have hne : ((j.required_skills.length : ℕ) : ℚ) ≠ 0 := Nat.cast_ne_zero.mpr hn
    rw [div_self hne, one_mul]
  refine ⟨hscore job hreq, ?_, ?_⟩
  · rw [find_eq_spec, specMatchedSkills]
    exact List.filter_eq_self.mpr
      (fun a _ => specContainmentTest_of_empty_mem hmem a)
  · refine ⟨_, retrieve_verified_ok st candidateSkills er topK hjobs hv, ?_⟩
    simp only [Option.some.injEq]
    rw [filtered_length_eq_countP]
    apply List.countP_congr
    intro j _
    by_cases hj : j.required_skills = []
    · have h0 : _calculateMatchScore candidateSkills j = 0 := by
        rw [_calculateMatchScore, if_pos (by simp [hj])]
      simp [h0, hj]
    · have h100 := hscore j hj
      simp [h100, hj, List.isEmpty_iff]
      norm_num

/-- C9 (witness): with the empty string among the candidate skills, the
concrete job `jobA` (one required skill) scores 100 with its full
required-skills list matched, and the verified matcher counts it. -/
theorem emptySkill_matches_all_witness :
    _calculateMatchScore [str "java", []] jobA = 100 ∧
    _findMatchedSkills [str "java", []] jobA = jobA.required_skills ∧
    ∃ res, retrieveMatchingJobs stateWithJobA [str "java", []]
        verifiedResult 5 = Except.ok res ∧
      res.total_matches =
        some (stateWithJobA.jobs.countP
          (fun j => !j.required_skills.isEmpty)) :=
  emptySkill_matches_all [str "java", []] jobA stateWithJobA verifiedResult 5
    (by simp) (by simp [jobA]) (by simp [stateWithJobA]) rfl

/-! ### C1 — the verification invariant of evaluateAllAnswers -/

/-- The exact (unrounded) arithmetic mean of the individual scores stored
in a batch result. -/
def meanScore (r : BatchResult) : ℚ :=
  (r.individual_evaluations.map (fun e => e.evaluation.score)).sum /
    (r.individual_evaluations.length : ℚ)

/-- A successful evaluation loop's accumulated total is the sum of the
recorded scores, and it records one evaluation per question. -/
theorem evalLoop_ok_spec (oracle : Question → Str → Except Str RawEval) :
    ∀ (qs : List Question) (as : List Str)
      (evs : List IndividualEvaluation) (t : ℚ),
      evalLoop oracle qs as = Except.ok (evs, t) →
      t = (evs.map (fun e => e.evaluation.score)).sum ∧
        evs.length = qs.length := by
  intro qs
  induction qs with
  | nil =>
    intro as evs t h
    cases as with
    | nil =>
      rw [evalLoop] at h
      cases h
      simp
    | cons a as =>
      rw [evalLoop] at h
      cases h
      simp
  | cons q qs ih =>
    intro as evs t h
    cases as with
    | nil => rw [evalLoop] at h; cases h
    | cons a as =>
      rw [evalLoop] at h
      cases hE : evaluateAnswer (oracle q a) with
      | error e => rw [hE] at h; cases h
      | ok ev =>
        rw [hE] at h
        cases hL : evalLoop oracle qs as with
        | error e => rw [hL] at h; cases h
        | ok pr =>
          obtain ⟨rest, tt⟩ := pr
          rw [hL] at h
          cases h
          obtain ⟨h1, h2⟩ := ih as rest tt hL
          refine ⟨?_, by simp [h2]⟩
          simp [h1]

/-- C1 (amended): every successful `evaluateAllAnswers` result satisfies
`is_verified == (exact mean ≥ 70)` and `average_score == round-half-up of
the exact mean` — the verification flag is computed from the UNROUNDED
mean, so it is not equivalent to `average_score ≥ 70` (a mean in
`[69.5, 70)` reports a rounded average of 70 yet is not verified). -/
theorem evaluateAll_verification_invariant
    (oracle : Question → Str → Except Str RawEval)
    (questions : List Question) (userAnswers : List Str) (r : BatchResult)
    (h : evaluateAllAnswers oracle questions userAnswers = Except.ok r) :
    r.is_verified = decide ((70:ℚ) ≤ meanScore r) ∧
    r.average_score = jsRound (meanScore r) ∧
    r.summary.status =
      (if (70:ℚ) ≤ meanScore r then str "VERIFIED"
       else str "NOT_VERIFIED") := by
  rw [evaluateAllAnswers] at h
  by_cases hlen : questions.length ≠ userAnswers.length
  · rw [if_pos hlen] at h
    cases h
  · rw [if_neg hlen] at h
    cases hL : evalLoop oracle questions userAnswers with
    | error e => rw [hL] at h; cases h
    | ok pr =>
      obtain ⟨evs, t⟩ := pr
      rw [hL] at h
      obtain ⟨h1, h2⟩ := evalLoop_ok_spec oracle questions userAnswers evs t hL
      cases h
      have hmean : t / ((questions.length : ℕ) : ℚ) =
          meanScore { is_verified := decide ((70:ℚ) ≤ t / (questions.length : ℚ))
                      average_score := jsRound (t / (questions.length : ℚ))
                      total_score := jsRound t
                      passing_threshold := 70
                      individual_evaluations := evs
                      summary :=
                        { passed_questions :=
                            (evs.filter (fun e => e.evaluation.passed)).length
                          total_questions := evs.length
                          status :=
                            if (70:ℚ) ≤ t / (questions.length : ℚ) then
                              str "VERIFIED"
                            else str "NOT_VERIFIED" } } := by
        rw [meanScore]
        simp only []
        rw [← h1, h2]
      exact ⟨by rw [← hmean], by rw [← hmean], by rw [← hmean]⟩

/-- First question of the counterexample batch. -/
def qX : Question :=
  { id := 1, skill := str "python", question := str "Q1"
    correct_answer := str "A1", keywords := [] }

/-- Second question of the counterexample batch. -/
def qY : Question :=
  { id := 2, skill := str "sql", question := str "Q2"
    correct_answer := str "A2", keywords := [] }

/-- An oracle scoring question 1 at 70 and question 2 at 69. -/
def oracleHalf : Question → Str → Except Str RawEval :=
  fun q _ =>
    .ok { score := if q.id == 1 then 70 else 69, accuracy := 30
          completeness := 25, clarity := 10, keyword_score := 5
          verdict := str "pass", feedback := str "fb"
          strengths := [], improvements := [] }

/-- The evaluation returned for the 70-point answer. -/
def eval70 : AnswerEvaluation :=
  { score := 70, accuracy := 30, completeness := 25, clarity := 10
    keyword_score := 5, verdict := str "pass", feedback := str "fb"
    strengths := [], improvements := [], passed := true }

/-- The evaluation returned for the 69-point answer. -/
def eval69 : AnswerEvaluation :=
  { score := 69, accuracy := 30, completeness := 25, clarity := 10
    keyword_score := 5, verdict := str "pass", feedback := str "fb"
    strengths := [], improvements := [], passed := false }

/-- C1 (counterexample): a two-question batch with scores 70 and 69 has
mean 69.5, which `Math.round`s (half-up) to an `average_score` of 70 —
yet `is_verified` is `false`, because the code compares the UNROUNDED mean
with the threshold.  So `isVerified == (averageScore >= 70)` fails, and a
rounded average of 70 does not imply verification. -/
theorem evaluateAll_rounded_average_not_verified :
    (evaluateAllAnswers oracleHalf [qX, qY] [str "a", str "b"]).map
        (fun r => (r.is_verified, r.average_score)) =
      Except.ok (false, 70) := by
  have h70 : evaluateAnswer (oracleHalf qX (str "a")) = Except.ok eval70 := by
    have hmin : min (100:ℚ) 70 = 70 := min_eq_right (by norm_num)
    have hmax : max (0:ℚ) 70 = 70 := max_eq_right (by norm_num)
    simp [evaluateAnswer, oracleHalf, qX, eval70, hmin, hmax]
  have h69 : evaluateAnswer (oracleHalf qY (str "b")) = Except.ok eval69 := by
    have hmin : min (100:ℚ) 69 = 69 := min_eq_right (by norm_num)
    have hmax : max (0:ℚ) 69 = 69 := max_eq_right (by norm_num)
    have hp : decide ((70:ℚ) ≤ 69) = false := by
      rw [decide_eq_false_iff_not]
      norm_num
    simp [evaluateAnswer, oracleHalf, qY, eval69, hmin, hmax, hp]
  have hloop : evalLoop oracleHalf [qX, qY] [str "a", str "b"] =
      Except.ok
        ([{ question_id := qX.id, skill := qX.skill, question := qX.question
            user_answer := str "a", evaluation := eval70 },
          { question_id := qY.id, skill := qY.skill, question := qY.question
            user_answer := str "b", evaluation := eval69 }],
         70 + (69 + 0)) := by
    rw [evalLoop, h70, evalLoop, h69, evalLoop]
    simp [eval70, eval69]
  rw [evaluateAllAnswers, if_neg (by decide), hloop]
  have havg : ((70:ℚ) + (69 + 0)) / ((List.length [qX, qY] : ℕ) : ℚ) =
      139 / 2 := by
    norm_num
  simp only [Except.map, havg]
  have hver : decide ((70:ℚ) ≤ 139 / 2) = false := by
    rw [decide_eq_false_iff_not]
    norm_num
  have hround : jsRound ((139:ℚ) / 2) = 70 := by
    rw [jsRound, Int.floor_eq_iff]
    norm_num
  rw [hver, hround]

/-- The evaluation returned for an 80-point answer from `oracleGood`. -/
def eval80 : AnswerEvaluation :=
  { score := 80, accuracy := 35, completeness := 25, clarity := 12
    keyword_score := 8, verdict := str "pass", feedback := str "good"
    strengths := [], improvements := [], passed := true }

/-- The batch result of running `oracleGood` on the single question
`qW`. -/
def r80 : BatchResult :=
  { is_verified := true
    average_score := 80
    total_score := 80
    passing_threshold := 70
    individual_evaluations :=
      [{ question_id := qW.id, skill := qW.skill, question := qW.question
         user_answer := str "ans", evaluation := eval80 }]
    summary :=
      { passed_questions := 1, total_questions := 1
        status := str "VERIFIED" } }

/-- Concrete run backing the C1 witness. -/
theorem evaluateAll_oracleGood_run :
    evaluateAllAnswers oracleGood [qW] [str "ans"] = Except.ok r80 := by
  have h80 : evaluateAnswer (oracleGood qW (str "ans")) = Except.ok eval80 := by
    have hmin : min (100:ℚ) 80 = 80 := min_eq_right (by norm_num)
    have hmax : max (0:ℚ) 80 = 80 := max_eq_right (by norm_num)
    simp [evaluateAnswer, oracleGood, eval80, hmin, hmax]
    norm_num
  have hloop : evalLoop oracleGood [qW] [str "ans"] =
      Except.ok
        ([{ question_id := qW.id, skill := qW.skill, question := qW.question
            user_answer := str "ans", evaluation := eval80 }],
         80 + 0) := by
    rw [evalLoop, h80, evalLoop]
    simp [eval80]
  rw [evaluateAllAnswers, if_neg (by decide), hloop]
  have havg : ((80:ℚ) + 0) / ((List.length [qW] : ℕ) : ℚ) = 80 := by
    norm_num
  simp only [havg]
  have hver : decide ((70:ℚ) ≤ 80) = true := by
    rw [decide_eq_true_eq]
    norm_num
  have hround : jsRound (80:ℚ) = 80 := by
    rw [jsRound, Int.floor_eq_iff]
    norm_num
  have hround2 : jsRound ((80:ℚ) + 0) = 80 := by
    rw [add_zero]
    exact hround
  rw [hver, hround, hround2, if_pos (by norm_num : (70:ℚ) ≤ 80)]
  simp [r80, eval80]

/-- C1 (witness): the amended invariant instantiated on the concrete
one-question run. -/
theorem evaluateAll_verification_invariant_witness :
    r80.is_verified = decide ((70:ℚ) ≤ meanScore r80) ∧
    r80.average_score = jsRound (meanScore r80) ∧
    r80.summary.status =
      (if (70:ℚ) ≤ meanScore r80 then str "VERIFIED"
       else str "NOT_VERIFIED") :=
  evaluateAll_verification_invariant oracleGood [qW] [str "ans"] r80
    evaluateAll_oracleGood_run
